import Mathlib

/-!
Shallow embedding of `src/app.py` (SymanticImageRecommendation).

The app is a single-file Streamlit front-end: it extracts text from an
uploaded document (txt / docx / pdf), checks a remote API status, fetches an
image recommendation from the API, and appends a timestamped entry to a
process-global history list.

Modelling choices:
  * Python exceptions become the inductive `PyExn`; Python functions whose
    body may raise return `Except PyExn α`.
  * Library calls (file decoding, docx/pdf parsing, HTTP requests) are the
    nondeterministic environment: each is modelled by an outcome value
    (`Except` for readers, `StatusOutcome` / `FetchOutcome` for HTTP) carried
    in the input structures, so theorems quantify over every behaviour the
    library may exhibit.
  * Observable side effects (`st.error`, `st.write`, `st.image`, and the two
    HTTP requests) are collected in an explicit `List Effect`.
  * Timestamps (`datetime.datetime.now()` formatted to seconds) become `Nat`
    supplied by the environment.
  * A run of the Submit handler in `main` (lines 216-247 of app.py) is
    `submitPipeline`: it returns the new history, the emitted effects, and
    `crash = some e` when an uncaught exception would abort the script run.
-/

/-- Python exception values relevant to the app: the `requests` exception
hierarchy, decoding and parsing failures, and generic exceptions. -/
inductive PyExn where
  | httpError (m : String)
  | connectionError (m : String)
  | timeoutError (m : String)
  | requestException (m : String)
  | decodeError (m : String)
  | parseError (m : String)
  | attributeError (m : String)
  | jsonError (m : String)
  | otherError (m : String)
  deriving DecidableEq, Repr

/-- The message carried by an exception (Python `str(e)`). -/
def PyExn.message : PyExn → String
  | .httpError m | .connectionError m | .timeoutError m | .requestException m
  | .decodeError m | .parseError m | .attributeError m | .jsonError m
  | .otherError m => m

/-- Whether the exception is an instance of `requests.exceptions.RequestException`
(`HTTPError`, `ConnectionError`, `Timeout` are its subclasses). -/
def PyExn.isRequestException : PyExn → Bool
  | .httpError _ | .connectionError _ | .timeoutError _ | .requestException _ => true
  | _ => false

/-- Observable side effects of a run: Streamlit renderings and the two
outgoing HTTP requests. -/
inductive Effect where
  | statusCall
  | fetchCall (query : String) (use_ai : Bool)
  | stError (m : String)
  | stWrite (m : String)
  | stImage (payload : String)
  deriving DecidableEq, Repr

/-- Whether the effect is a network request to `/recommend_images`. -/
def Effect.isFetch : Effect → Bool
  | .fetchCall _ _ => true
  | _ => false

/-- Whether the effect is an `st.error` rendering. -/
def Effect.isError : Effect → Bool
  | .stError _ => true
  | _ => false

/-- An HTTP response to the `/recommend_images` request: a status code and the
result of calling `.json()` on it (`none` when the body is not valid JSON, so
`.json()` raises). The JSON payload is kept abstract as a string. -/
structure HttpResponse where
  statusCode : Nat
  body : Option String
  deriving DecidableEq, Repr

/-- Outcome of `requests.get(f"{api_url}/recommend_images", ...)`: either the
call raises, or it returns a response (of any status code: `requests.get`
itself does not raise on non-2xx codes). -/
inductive FetchOutcome where
  | raises (e : PyExn)
  | response (r : HttpResponse)
  deriving DecidableEq, Repr

/-- Outcome of `requests.get(f"{api_url}/status")`: either the call raises, or
it returns a response with a status code and the optional `status` field of
its JSON body (`none` when the field is absent, in which case Python
`dict.get` yields `None`). -/
inductive StatusOutcome where
  | raises (e : PyExn)
  | response (code : Nat) (statusField : Option String)
  deriving DecidableEq, Repr

/-- An uploaded file: its declared media type, together with the outcome of
each library operation the readers may apply to its payload
(`file.read().decode("utf-8")`; docx paragraph texts in document order; pdf
page texts in page order). An `.error` outcome means the library raises. -/
structure UploadedFile where
  type : String
  readOutcome : Except PyExn String
  docxOutcome : Except PyExn (List String)
  pdfOutcome : Except PyExn (List String)

/-- app.py `check_api_status` (lines 21-36): GET `/status`,
`raise_for_status()` (raises `HTTPError` for status codes 400-599), then
compare the JSON field `status` with `"API is running"`; every
`RequestException` is caught and mapped to `"Not Available"`. -/
def check_api_status : StatusOutcome → Except PyExn String
  | .raises e => if e.isRequestException then .ok "Not Available" else .error e
  | .response code statusField =>
    if 400 ≤ code ∧ code < 600 then .ok "Not Available"
    else if statusField == some "API is running" then .ok "Running"
    else .ok "Unknown Status"

/-- app.py `read_text_file` (lines 38-52): decode the payload as UTF-8; on any
exception report `st.error` and return the empty string. -/
def read_text_file (file : UploadedFile) : Except PyExn (String × List Effect) :=
  match file.readOutcome with
  | .ok s => .ok (s, [])
  | .error e => .ok ("", [Effect.stError ("Error reading text file: " ++ e.message)])

/-- app.py `read_docx_file` (lines 54-70): parse the docx, join the paragraph
texts with newline; on any exception report `st.error` and return the empty
string. -/
def read_docx_file (file : UploadedFile) : Except PyExn (String × List Effect) :=
  match file.docxOutcome with
  | .ok full_text => .ok (String.intercalate "\n" full_text, [])
  | .error e => .ok ("", [Effect.stError ("Error reading DOCX file: " ++ e.message)])

/-- app.py `read_pdf_file` (lines 72-88): parse the pdf, join the page texts
with newline; on any exception report `st.error` and return the empty
string. -/
def read_pdf_file (file : UploadedFile) : Except PyExn (String × List Effect) :=
  match file.pdfOutcome with
  | .ok text => .ok (String.intercalate "\n" text, [])
  | .error e => .ok ("", [Effect.stError ("Error reading PDF file: " ++ e.message)])

/-- app.py `process_file` (lines 90-112): dispatch on the declared media type;
unsupported types report `st.error "Unsupported file type"` and yield `none`;
an exception escaping the dispatch is caught by the outer handler. -/
def process_file (uploaded_file : UploadedFile) : Except PyExn (Option String × List Effect) :=
  let body : Except PyExn (Option String × List Effect) :=
    if uploaded_file.type == "text/plain" then
      (read_text_file uploaded_file).map (fun p => (some p.1, p.2))
    else if uploaded_file.type == "application/vnd.openxmlformats-officedocument.wordprocessingml.document" then
      (read_docx_file uploaded_file).map (fun p => (some p.1, p.2))
    else if uploaded_file.type == "application/pdf" then
      (read_pdf_file uploaded_file).map (fun p => (some p.1, p.2))
    else
      .ok (none, [Effect.stError "Unsupported file type"])
  match body with
  | .ok v => .ok v
  | .error e => .ok (none, [Effect.stError ("Error processing file: " ++ e.message)])

/-- The `st.error` message emitted by each handler of
`get_image_recommendation`, in the order of the `except` clauses. -/
def fetchErrMsg : PyExn → String
  | .httpError m => "HTTP error occurred: " ++ m
  | .connectionError m => "Connection error occurred: " ++ m
  | .timeoutError m => "Timeout error occurred: " ++ m
  | .requestException m => "Request error occurred: " ++ m
  | e => "An unexpected error occurred: " ++ e.message

/-- app.py `get_image_recommendation` (lines 114-139): GET `/recommend_images`
with params `query` and `use_ai` and return the response object unchecked
(note: no `raise_for_status`, so a non-2xx response is returned as is); if the
request itself raises, report the matching `st.error` and return `None`. -/
def get_image_recommendation (outcome : FetchOutcome) (query : String) (use_ai : Bool) :
    Option HttpResponse × List Effect :=
  match outcome with
  | .response r => (some r, [Effect.fetchCall query use_ai])
  | .raises e => (none, [Effect.fetchCall query use_ai, Effect.stError (fetchErrMsg e)])

/-- One HistoryLog entry as built in `main` (lines 218, 240-242): the query
text and a timestamp. (The image keys are commented out in the source.) -/
structure HistoryEntry where
  text : String
  timestamp : Nat
  deriving DecidableEq, Repr

/-- The inputs a user supplies on the Demo tab before pressing Submit. -/
structure SubmitInput where
  typedText : String
  uploadedFile : Option UploadedFile
  mediaType : String

/-- The environment of one script run: the library/network behaviours and the
current wall-clock timestamp. `fetchOutcome` is keyed by the `use_ai` flag of
the request that would be issued. -/
structure Env where
  statusOutcome : StatusOutcome
  fetchOutcome : Bool → FetchOutcome
  now : Nat

/-- Result of one Submit run: the history list after the run, the effects
emitted (in order), and the uncaught exception if the script run aborted. -/
structure RunResult where
  history : List HistoryEntry
  effects : List Effect
  crash : Option PyExn
  deriving Repr

/-- `main` lines 203-214: `user_text` is the typed text, overridden by
`process_file(uploaded_file)` when a file was uploaded. -/
def resolveText (inp : SubmitInput) : Except PyExn (Option String × List Effect) :=
  match inp.uploadedFile with
  | none => .ok (some inp.typedText, [])
  | some f => process_file f

/-- One recommendation block of `main` (lines 219-237): write the header,
fetch, then call `.json()` on the result and render it. `image.json()` raises
`AttributeError` when the fetch returned `None`, and a JSON decode error when
the body is not JSON; either aborts the script run. -/
def fetchBlock (outcome : FetchOutcome) (header : String) (text : String) (use_ai : Bool) :
    List Effect × Option PyExn :=
  let writeEff := Effect.stWrite header
  match get_image_recommendation outcome text use_ai with
  | (none, effs) =>
    (writeEff :: effs, some (PyExn.attributeError "NoneType object has no attribute json"))
  | (some r, effs) =>
    match r.body with
    | none => (writeEff :: effs, some (PyExn.jsonError "Expecting value"))
    | some j => (writeEff :: effs ++ [Effect.stImage j], none)

/-- The Submit handler of `main` (lines 213-247), one run: check the API
status, resolve the user text, and when the text is truthy and the status is
`"Running"`, run the `"AI"` and `"Stock Images"` blocks (two independent
membership tests in the source) and append one timestamped entry to the
history; otherwise report the matching `st.error` and leave the history
unchanged. -/
def submitPipeline (env : Env) (inp : SubmitInput) (history : List HistoryEntry) : RunResult :=
  match check_api_status env.statusOutcome with
  | .error e => ⟨history, [Effect.statusCall], some e⟩
  | .ok api_status =>
    match resolveText inp with
    | .error e => ⟨history, [Effect.statusCall], some e⟩
    | .ok (user_text, fileEffs) =>
      let effs0 := Effect.statusCall :: fileEffs
      match user_text with
      | some t =>
        if (!(t == "")) && (api_status == "Running") then
          let aiStep :=
            if inp.mediaType == "AI" then
              fetchBlock (env.fetchOutcome true) "### Recommended AI Image" t true
            else ([], none)
          match aiStep with
          | (aiEffs, some e) => ⟨history, effs0 ++ aiEffs, some e⟩
          | (aiEffs, none) =>
            let stockStep :=
              if inp.mediaType == "Stock Images" then
                fetchBlock (env.fetchOutcome false) "### Recommended Stock Images" t false
              else ([], none)
            match stockStep with
            | (stockEffs, some e) => ⟨history, effs0 ++ aiEffs ++ stockEffs, some e⟩
            | (stockEffs, none) =>
              ⟨history ++ [⟨t, env.now⟩], effs0 ++ aiEffs ++ stockEffs, none⟩
        else if t == "" then
          ⟨history,
            effs0 ++ [Effect.stError "Please enter text or upload a file to get recommendations."],
            none⟩
        else
          ⟨history,
            effs0 ++ [Effect.stError "Cannot perform recommendations as the API is not running."],
            none⟩
      | none =>
        ⟨history,
          effs0 ++ [Effect.stError "Please enter text or upload a file to get recommendations."],
          none⟩

/-! ### Helper lemmas on the readers and the dispatcher -/

lemma read_text_file_cases (f : UploadedFile) :
    (∃ s, read_text_file f = Except.ok (s, [])) ∨
    (∃ m, read_text_file f = Except.ok ("", [Effect.stError m])) := by
  unfold read_text_file
  cases f.readOutcome with
  | ok s => exact Or.inl ⟨s, rfl⟩
  | error e => exact Or.inr ⟨_, rfl⟩

lemma read_docx_file_cases (f : UploadedFile) :
    (∃ s, read_docx_file f = Except.ok (s, [])) ∨
    (∃ m, read_docx_file f = Except.ok ("", [Effect.stError m])) := by
  unfold read_docx_file
  cases f.docxOutcome with
  | ok s => exact Or.inl ⟨_, rfl⟩
  | error e => exact Or.inr ⟨_, rfl⟩

lemma read_pdf_file_cases (f : UploadedFile) :
    (∃ s, read_pdf_file f = Except.ok (s, [])) ∨
    (∃ m, read_pdf_file f = Except.ok ("", [Effect.stError m])) := by
  unfold read_pdf_file
  cases f.pdfOutcome with
  | ok s => exact Or.inl ⟨_, rfl⟩
  | error e => exact Or.inr ⟨_, rfl⟩

lemma process_file_effects (f : UploadedFile) :
    (∃ o, process_file f = Except.ok (o, [])) ∨
    (∃ o m, process_file f = Except.ok (o, [Effect.stError m])) := by
  unfold process_file
  by_cases c1 : f.type == "text/plain"
  · simp only [c1, if_true]
    rcases read_text_file_cases f with ⟨s, h⟩ | ⟨m, h⟩
    · rw [h]; exact Or.inl ⟨some s, rfl⟩
    · rw [h]; exact Or.inr ⟨some "", m, rfl⟩
  · simp only [c1, if_false]
    by_cases c2 : f.type == "application/vnd.openxmlformats-officedocument.wordprocessingml.document"
    · simp only [c2, if_true]
      rcases read_docx_file_cases f with ⟨s, h⟩ | ⟨m, h⟩
      · rw [h]; exact Or.inl ⟨some s, rfl⟩
      · rw [h]; exact Or.inr ⟨some "", m, rfl⟩
    · simp only [c2, if_false]
      by_cases c3 : f.type == "application/pdf"
      · simp only [c3, if_true]
        rcases read_pdf_file_cases f with ⟨s, h⟩ | ⟨m, h⟩
        · rw [h]; exact Or.inl ⟨some s, rfl⟩
        · rw [h]; exact Or.inr ⟨some "", m, rfl⟩
      · simp only [c3, if_false]
        exact Or.inr ⟨none, _, rfl⟩

lemma process_file_total (f : UploadedFile) :
    ∃ v, process_file f = Except.ok v := by
  rcases process_file_effects f with ⟨o, h⟩ | ⟨o, m, h⟩
  · exact ⟨_, h⟩
  · exact ⟨_, h⟩

lemma resolveText_cases (inp : SubmitInput) :
    (∃ o, resolveText inp = Except.ok (o, [])) ∨
    (∃ o m, resolveText inp = Except.ok (o, [Effect.stError m])) := by
  unfold resolveText
  cases inp.uploadedFile with
  | none => exact Or.inl ⟨some inp.typedText, rfl⟩
  | some f => exact process_file_effects f

/-! ### Concrete inputs used by witnesses and counterexamples -/

/-- A well-formed upload: every reader outcome succeeds. -/
def fGood : UploadedFile :=
  ⟨"text/plain", Except.ok "hello\nworld", Except.ok ["a", "b"], Except.ok ["p1", "p2"]⟩

/-- An upload on which every library operation raises. -/
def fBroken : UploadedFile :=
  ⟨"text/plain", Except.error (PyExn.decodeError "invalid continuation byte"),
    Except.error (PyExn.parseError "bad docx container"),
    Except.error (PyExn.parseError "bad pdf container")⟩

/-! ### C4, C5, C8, C10 -/

/-- C4: for every successfully parsed supported document, the extracted text
is the newline-join of the textual segments in source order: the verbatim
decoded text (a single segment) for plain text, the paragraph texts for docx,
the page texts for pdf; no effect is emitted on success. -/
theorem extract_joins_segments (f : UploadedFile) (s : String) (paras pages : List String) :
    (f.readOutcome = Except.ok s →
      read_text_file f = Except.ok (String.intercalate "\n" [s], [])) ∧
    (f.docxOutcome = Except.ok paras →
      read_docx_file f = Except.ok (String.intercalate "\n" paras, [])) ∧
    (f.pdfOutcome = Except.ok pages →
      read_pdf_file f = Except.ok (String.intercalate "\n" pages, [])) := by
  refine ⟨fun h => ?_, fun h => ?_, fun h => ?_⟩
  · unfold read_text_file
    rw [h]
    rfl
  · unfold read_docx_file
    rw [h]
  · unfold read_pdf_file
    rw [h]

/-- Witness for C4 at a concrete document. -/
theorem extract_joins_segments_witness :
    read_text_file fGood = Except.ok ("hello\nworld", []) ∧
    read_docx_file fGood = Except.ok ("a\nb", []) ∧
    read_pdf_file fGood = Except.ok ("p1\np2", []) :=
  ⟨(extract_joins_segments fGood "hello\nworld" [] []).1 rfl,
    (extract_joins_segments fGood "" ["a", "b"] []).2.1 rfl,
    (extract_joins_segments fGood "" [] ["p1", "p2"]).2.2 rfl⟩

/-- C5 counterexample: on an unreachable host the code returns the string
`"Not Available"` (with a space), not `"NotAvailable"` as the claim states. -/
theorem check_api_status_spelling :
    check_api_status (StatusOutcome.raises (PyExn.connectionError "refused"))
      = Except.ok "Not Available" ∧
    "Not Available" ≠ "NotAvailable" := ⟨rfl, by decide⟩

/-- C5 amended: `check_api_status` returns `"Running"` exactly when the GET
returned a response whose status code is outside 400-599 (so
`raise_for_status` passes) and whose JSON `status` field equals
`"API is running"`; it returns `"Not Available"` when the request raises a
`RequestException` or the response code is in 400-599, and
`"Unknown Status"` for any other response. -/
theorem check_api_status_spec (o : StatusOutcome) :
    (check_api_status o = Except.ok "Running" ↔
      ∃ code statusField, o = StatusOutcome.response code statusField ∧
        ¬(400 ≤ code ∧ code < 600) ∧ statusField = some "API is running") ∧
    (∀ e, o = StatusOutcome.raises e → e.isRequestException = true →
      check_api_status o = Except.ok "Not Available") ∧
    (∀ code statusField, o = StatusOutcome.response code statusField →
      400 ≤ code → code < 600 → check_api_status o = Except.ok "Not Available") ∧
    (∀ code statusField, o = StatusOutcome.response code statusField →
      ¬(400 ≤ code ∧ code < 600) → statusField ≠ some "API is running" →
      check_api_status o = Except.ok "Unknown Status") := by
  cases o with
  | raises e =>
    cases he : e.isRequestException <;>
      simp [check_api_status, he]
  | response code statusField =>
    by_cases h4 : 400 ≤ code ∧ code < 600
    · simp [check_api_status, h4]
    · by_cases hf : statusField = some "API is running" <;>
        simp [check_api_status, h4, hf] <;> omega

/-- Witness for C5 amended at concrete responses. -/
theorem check_api_status_spec_witness :
    check_api_status (StatusOutcome.response 200 (some "API is running"))
      = Except.ok "Running" ∧
    check_api_status (StatusOutcome.response 500 none) = Except.ok "Not Available" ∧
    check_api_status (StatusOutcome.response 200 (some "warming up"))
      = Except.ok "Unknown Status" :=
  ⟨(check_api_status_spec _).1.mpr ⟨200, some "API is running", rfl, by decide, rfl⟩,
    (check_api_status_spec _).2.2.1 500 none rfl (by decide) (by decide),
    (check_api_status_spec _).2.2.2 200 (some "warming up") rfl (by decide) (by decide)⟩

/-- C8: when the underlying library raises on a document, each reader reports
the error through `st.error` and returns the empty string instead of
propagating the exception. -/
theorem extraction_failure_empty_string (f : UploadedFile) (e : PyExn) :
    (f.readOutcome = Except.error e → read_text_file f =
      Except.ok ("", [Effect.stError ("Error reading text file: " ++ e.message)])) ∧
    (f.docxOutcome = Except.error e → read_docx_file f =
      Except.ok ("", [Effect.stError ("Error reading DOCX file: " ++ e.message)])) ∧
    (f.pdfOutcome = Except.error e → read_pdf_file f =
      Except.ok ("", [Effect.stError ("Error reading PDF file: " ++ e.message)])) := by
  refine ⟨fun h => ?_, fun h => ?_, fun h => ?_⟩
  · unfold read_text_file; rw [h]
  · unfold read_docx_file; rw [h]
  · unfold read_pdf_file; rw [h]

/-- Witness for C8 at a concrete broken document. -/
theorem extraction_failure_empty_string_witness :
    read_text_file fBroken = Except.ok
      ("", [Effect.stError "Error reading text file: invalid continuation byte"]) ∧
    read_docx_file fBroken = Except.ok
      ("", [Effect.stError "Error reading DOCX file: bad docx container"]) ∧
    read_pdf_file fBroken = Except.ok
      ("", [Effect.stError "Error reading PDF file: bad pdf container"]) :=
  ⟨(extraction_failure_empty_string fBroken (PyExn.decodeError "invalid continuation byte")).1 rfl,
    (extraction_failure_empty_string fBroken (PyExn.parseError "bad docx container")).2.1 rfl,
    (extraction_failure_empty_string fBroken (PyExn.parseError "bad pdf container")).2.2 rfl⟩

/-- C10: the three readers and the dispatcher are total at their interface:
for every input, including those on which every library operation raises, they
return an `ok` value (a string, possibly empty, or `none` for unsupported
types) and never propagate an exception. -/
theorem readers_and_dispatcher_total (f : UploadedFile) :
    (∃ v, read_text_file f = Except.ok v) ∧
    (∃ v, read_docx_file f = Except.ok v) ∧
    (∃ v, read_pdf_file f = Except.ok v) ∧
    (∃ v, process_file f = Except.ok v) := by
  refine ⟨?_, ?_, ?_, process_file_total f⟩
  · rcases read_text_file_cases f with ⟨s, h⟩ | ⟨m, h⟩ <;> exact ⟨_, h⟩
  · rcases read_docx_file_cases f with ⟨s, h⟩ | ⟨m, h⟩ <;> exact ⟨_, h⟩
  · rcases read_pdf_file_cases f with ⟨s, h⟩ | ⟨m, h⟩ <;> exact ⟨_, h⟩

/-! ### Pipeline-level helper lemmas and concrete environments -/

/-- When the status string is not `"Running"`, the Submit handler only emits
the file-processing effects and one error message, and changes nothing. -/
lemma submitPipeline_short (env : Env) (inp : SubmitInput) (history : List HistoryEntry)
    (s : String) (o : Option String) (fe : List Effect)
    (hs : check_api_status env.statusOutcome = Except.ok s)
    (hr : resolveText inp = Except.ok (o, fe))
    (hsR : (s == "Running") = false) :
    ∃ msg, submitPipeline env inp history =
      ⟨history, Effect.statusCall :: (fe ++ [Effect.stError msg]), none⟩ := by
  unfold submitPipeline
  rw [hs, hr]
  cases o with
  | none => exact ⟨_, rfl⟩
  | some t =>
    by_cases ht : (t == "") = true
    · simp only [ht, hsR, Bool.not_true, Bool.false_and, Bool.and_false, if_false,
        Bool.false_eq_true, if_true]
      exact ⟨_, rfl⟩
    · simp only [hsR, Bool.and_false, Bool.false_eq_true, if_false, if_neg ht]
      exact ⟨_, rfl⟩

/-- A service environment in which `/status` reports a running API and
`/recommend_images` answers HTTP 500 with a JSON body. -/
def env500 : Env :=
  ⟨StatusOutcome.response 200 (some "API is running"),
    fun _ => FetchOutcome.response ⟨500, some "internal error"⟩, 5⟩

/-- A healthy service environment: running API, HTTP 200 with a JSON body. -/
def envOk : Env :=
  ⟨StatusOutcome.response 200 (some "API is running"),
    fun _ => FetchOutcome.response ⟨200, some "img1.png"⟩, 9⟩

/-- An unreachable service: every request raises `ConnectionError`. -/
def envDown : Env :=
  ⟨StatusOutcome.raises (PyExn.connectionError "refused"),
    fun _ => FetchOutcome.raises (PyExn.connectionError "refused"), 7⟩

/-- Submit with typed text and the `"Stock Images"` selection. -/
def inpStock : SubmitInput := ⟨"hello", none, "Stock Images"⟩

/-- Submit with typed text and the `"AI"` selection. -/
def inpAI : SubmitInput := ⟨"cats", none, "AI"⟩

/-- Submit with typed text and a selection outside the radio enumeration. -/
def inpVideo : SubmitInput := ⟨"hello", none, "Video"⟩

/-- Submit with an upload whose declared media type is unsupported. -/
def inpUpload : SubmitInput :=
  ⟨"typed", some ⟨"image/png", Except.ok "x", Except.ok [], Except.ok []⟩, "AI"⟩

/-- A one-entry history older than the clock of `envOk`. -/
def histPrev : List HistoryEntry := [⟨"older", 3⟩]

/-! ### C1, C2, C3, C6, C7, C9 -/

/-- C1 (code bug): with the API running and non-empty text, a fetch answered
by HTTP 500 still results in a new HistoryLog entry, because
`get_image_recommendation` returns the response without `raise_for_status`;
so a failed service call does produce an entry. -/
theorem http500_still_appends_entry :
    env500.fetchOutcome false = FetchOutcome.response ⟨500, some "internal error"⟩ ∧
    (submitPipeline env500 inpStock []).history = [⟨"hello", 5⟩] ∧
    (submitPipeline env500 inpStock []).crash = none := ⟨rfl, rfl, rfl⟩

/-- C2 (code bug): on the HTTP 500 answer no `st.error` at all is emitted (in
particular no `"HTTP error occurred"` message) and one entry is appended,
contrary to the claim of a surfaced `HttpError` and zero entries. -/
theorem http500_no_error_surfaced :
    env500.fetchOutcome false = FetchOutcome.response ⟨500, some "internal error"⟩ ∧
    ((submitPipeline env500 inpStock []).effects.all fun e => !e.isError) = true ∧
    (submitPipeline env500 inpStock []).history.length = 1 := ⟨rfl, rfl, rfl⟩

/-- C3: whenever the status check returns a value other than `"Running"`, the
Submit handler leaves the history unchanged, issues no request to
`/recommend_images`, does not crash, and shows an error message. -/
theorem not_running_short_circuits (env : Env) (inp : SubmitInput)
    (history : List HistoryEntry) (s : String)
    (hs : check_api_status env.statusOutcome = Except.ok s) (hne : s ≠ "Running") :
    (submitPipeline env inp history).history = history ∧
    (submitPipeline env inp history).crash = none ∧
    ((submitPipeline env inp history).effects.all fun e => !e.isFetch) = true ∧
    ∃ m, Effect.stError m ∈ (submitPipeline env inp history).effects := by
  have hsR : (s == "Running") = false := beq_eq_false_iff_ne.mpr hne
  rcases resolveText_cases inp with ⟨o, hr⟩ | ⟨o, m, hr⟩ <;>
    obtain ⟨msg, hrun⟩ := submitPipeline_short env inp history s o _ hs hr hsR <;>
    rw [hrun] <;>
    exact ⟨rfl, rfl, by simp [Effect.isFetch], ⟨msg, by simp⟩⟩

/-- Witness for C3: unreachable host, so the status is `"Not Available"`. -/
theorem not_running_short_circuits_witness :
    (submitPipeline envDown inpAI []).history = [] ∧
    (submitPipeline envDown inpAI []).crash = none ∧
    ((submitPipeline envDown inpAI []).effects.all fun e => !e.isFetch) = true ∧
    ∃ m, Effect.stError m ∈ (submitPipeline envDown inpAI []).effects :=
  not_running_short_circuits envDown inpAI [] "Not Available" rfl (by decide)

/-- C6: when the API is running, the text is non-empty, the selection is one
of the two radio values, and the fetch succeeds (2xx with a JSON body), the
run performs the fetch and appends exactly one entry, stamped with the
current clock; under a monotone clock that stamp is at least the timestamp
of the previous entry. -/
theorem successful_fetch_appends_one (env : Env) (inp : SubmitInput)
    (history : List HistoryEntry) (t : String) (fe : List Effect)
    (r : HttpResponse) (j : String) (b : Bool)
    (hs : check_api_status env.statusOutcome = Except.ok "Running")
    (hr : resolveText inp = Except.ok (some t, fe))
    (ht : (t == "") = false)
    (hmedia : (inp.mediaType = "AI" ∧ b = true) ∨ (inp.mediaType = "Stock Images" ∧ b = false))
    (hfetch : env.fetchOutcome b = FetchOutcome.response r)
    (_h2xx : 200 ≤ r.statusCode ∧ r.statusCode < 300)
    (hbody : r.body = some j)
    (hclock : ∀ p ∈ history, p.timestamp ≤ env.now) :
    (submitPipeline env inp history).history = history ++ [⟨t, env.now⟩] ∧
    Effect.fetchCall t b ∈ (submitPipeline env inp history).effects ∧
    (submitPipeline env inp history).crash = none ∧
    ∀ p, history.getLast? = some p → p.timestamp ≤ env.now := by
  have hlast : ∀ p, history.getLast? = some p → p.timestamp ≤ env.now :=
    fun p hp => hclock p (List.mem_of_getLast?_eq_some hp)
  rcases hmedia with ⟨hm, hb⟩ | ⟨hm, hb⟩ <;> subst hb <;>
    refine ⟨?_, ?_, ?_, hlast⟩ <;>
    simp [submitPipeline, hs, hr, ht, hm, fetchBlock, get_image_recommendation, hfetch, hbody]

/-- Witness for C6 at a healthy service and a non-empty prior history. -/
theorem successful_fetch_appends_one_witness :
    (submitPipeline envOk inpAI histPrev).history = histPrev ++ [⟨"cats", 9⟩] ∧
    Effect.fetchCall "cats" true ∈ (submitPipeline envOk inpAI histPrev).effects ∧
    (submitPipeline envOk inpAI histPrev).crash = none ∧
    ∀ p, histPrev.getLast? = some p → p.timestamp ≤ 9 :=
  successful_fetch_appends_one envOk inpAI histPrev "cats" [] ⟨200, some "img1.png"⟩
    "img1.png" true rfl rfl rfl (Or.inl ⟨rfl, rfl⟩) rfl (by decide) rfl (by decide)

/-- C7: an upload with an unsupported declared media type is rejected by
`process_file` with `none`, and the run leaves the history unchanged and
issues no request to `/recommend_images`. -/
theorem unsupported_type_no_fetch (env : Env) (inp : SubmitInput)
    (history : List HistoryEntry) (f : UploadedFile)
    (hf : inp.uploadedFile = some f)
    (h1 : f.type ≠ "text/plain")
    (h2 : f.type ≠ "application/vnd.openxmlformats-officedocument.wordprocessingml.document")
    (h3 : f.type ≠ "application/pdf") :
    process_file f = Except.ok (none, [Effect.stError "Unsupported file type"]) ∧
    (submitPipeline env inp history).history = history ∧
    ((submitPipeline env inp history).effects.all fun e => !e.isFetch) = true := by
  have hp : process_file f = Except.ok (none, [Effect.stError "Unsupported file type"]) := by
    unfold process_file
    simp [beq_eq_false_iff_ne.mpr h1, beq_eq_false_iff_ne.mpr h2, beq_eq_false_iff_ne.mpr h3]
  have hr : resolveText inp = Except.ok (none, [Effect.stError "Unsupported file type"]) := by
    unfold resolveText
    rw [hf]
    exact hp
  cases hc : check_api_status env.statusOutcome with
  | error e =>
    exact ⟨hp, by simp [submitPipeline, hc], by simp [submitPipeline, hc, Effect.isFetch]⟩
  | ok s =>
    refine ⟨hp, ?_, ?_⟩ <;> simp [submitPipeline, hc, hr, Effect.isFetch]

/-- Witness for C7 at a concrete `image/png` upload. -/
theorem unsupported_type_no_fetch_witness :
    process_file ⟨"image/png", Except.ok "x", Except.ok [], Except.ok []⟩ =
      Except.ok (none, [Effect.stError "Unsupported file type"]) ∧
    (submitPipeline envOk inpUpload []).history = [] ∧
    ((submitPipeline envOk inpUpload []).effects.all fun e => !e.isFetch) = true :=
  unsupported_type_no_fetch envOk inpUpload []
    ⟨"image/png", Except.ok "x", Except.ok [], Except.ok []⟩
    rfl (by decide) (by decide) (by decide)

/-- C9 counterexample: with the API running, non-empty text, and the
selection value `"Video"` (different from `"AI"`), the run performs no fetch
at all — in particular no stock-image fetch with `use_ai = false` — yet still
appends an entry, because the source tests membership in `["AI"]` and in
`["Stock Images"]` separately with no fallback. -/
theorem video_selection_triggers_no_fetch :
    ((submitPipeline envOk inpVideo []).effects.all fun e => !e.isFetch) = true ∧
    (submitPipeline envOk inpVideo []).history = [⟨"hello", 9⟩] ∧
    (submitPipeline envOk inpVideo []).crash = none := ⟨rfl, rfl, rfl⟩

/-- C9 amended: only the exact values `"AI"` and `"Stock Images"` trigger a
fetch; a selection equal to neither performs no request to
`/recommend_images` at all, while still appending one history entry when the
text is non-empty and the API is running. -/
theorem other_selection_no_fetch (env : Env) (inp : SubmitInput)
    (history : List HistoryEntry) (t : String) (fe : List Effect)
    (hs : check_api_status env.statusOutcome = Except.ok "Running")
    (hr : resolveText inp = Except.ok (some t, fe))
    (ht : (t == "") = false)
    (hm1 : (inp.mediaType == "AI") = false)
    (hm2 : (inp.mediaType == "Stock Images") = false) :
    (submitPipeline env inp history).history = history ++ [⟨t, env.now⟩] ∧
    ((submitPipeline env inp history).effects.all fun e => !e.isFetch) = true ∧
    (submitPipeline env inp history).crash = none := by
  rcases resolveText_cases inp with ⟨o, h⟩ | ⟨o, m, h⟩ <;>
    rw [hr] at h <;> simp only [Except.ok.injEq, Prod.mk.injEq] at h <;>
    obtain ⟨-, hfe⟩ := h <;> subst hfe <;>
    refine ⟨?_, ?_, ?_⟩ <;>
    simp [submitPipeline, hs, hr, ht, hm1, hm2, Effect.isFetch]

/-- Witness for C9 amended at the concrete selection `"Video"`. -/
theorem other_selection_no_fetch_witness :
    (submitPipeline envOk inpVideo histPrev).history = histPrev ++ [⟨"hello", 9⟩] ∧
    ((submitPipeline envOk inpVideo histPrev).effects.all fun e => !e.isFetch) = true ∧
    (submitPipeline envOk inpVideo histPrev).crash = none :=
  other_selection_no_fetch envOk inpVideo histPrev "hello" [] rfl rfl rfl rfl rfl
